import Mathlib

/-
Shallow embedding of the Krystof850/111 speech-to-text + chat server.

The repository holds two variants:
  * src/main.py — a monolithic FastAPI app (endpoints transcribe_audio,
    chat_endpoint, health_check) using a local whisper model and an inline
    Czech keyword-fallback responder;
  * src/services/{openai_service,whisper_service,health_service}.py — a
    modular variant with per-service classes.

External effects (the OpenAI chat-completion call, the whisper engine, the
OpenAI transcription API) are modelled by oracle parameters: an
Option/Except value standing for the outcome the external call would have
produced (none/.error meaning the call raised).  Temporary-file lifecycle
and whether the engine was invoked are tracked by explicit boolean fields.
Clock-derived fields (timestamps) are omitted from the records since no
claim concerns them.
-/

/-! ## Python string primitives (modelled from the Python builtins) -/

/-- Model of Python str.lower() restricted to ASCII letters and the Czech
uppercase letters that occur in this code base; identity elsewhere. -/
def pyLowerChar (c : Char) : Char :=
  if 'A' ≤ c ∧ c ≤ 'Z' then Char.ofNat (c.toNat + 32)
  else match c with
    | 'Á' => 'á' | 'Č' => 'č' | 'Ď' => 'ď' | 'É' => 'é' | 'Ě' => 'ě'
    | 'Í' => 'í' | 'Ň' => 'ň' | 'Ó' => 'ó' | 'Ř' => 'ř' | 'Š' => 'š'
    | 'Ť' => 'ť' | 'Ú' => 'ú' | 'Ů' => 'ů' | 'Ý' => 'ý' | 'Ž' => 'ž'
    | _ => c

/-- Model of Python str.lower() applied characterwise. -/
def pyLower (s : String) : String := ⟨s.toList.map pyLowerChar⟩

/-- Characters removed by Python str.strip() (ASCII whitespace). -/
def isPySpace (c : Char) : Bool :=
  c = ' ' || c = '\t' || c = '\n' || c = '\r' || c = Char.ofNat 11 || c = Char.ofNat 12

/-- Model of Python str.strip(): drop leading and trailing whitespace. -/
def pyStrip (s : String) : String :=
  ⟨((s.toList.dropWhile isPySpace).reverse.dropWhile isPySpace).reverse⟩

/-- Substring membership on character lists (Python `needle in haystack`). -/
def listHasSub (needle : List Char) : List Char → Bool
  | [] => needle.isEmpty
  | c :: rest => needle.isPrefixOf (c :: rest) || listHasSub needle rest

/-- Python `needle in haystack` on strings. -/
def strIn (needle haystack : String) : Bool :=
  listHasSub needle.toList haystack.toList

/-- Python `any(word in haystack for word in needles)`. -/
def containsAny (haystack : String) (needles : List String) : Bool :=
  needles.any (fun w => strIn w haystack)

/-- Split a character list at every occurrence of the separator; the result
is never empty (mirrors Python str.split(sep)). -/
def splitOnChar (sep : Char) : List Char → List (List Char)
  | [] => [[]]
  | c :: rest =>
    let r := splitOnChar sep rest
    if c = sep then [] :: r
    else (c :: r.headD []) :: r.tail

/-- Model of pathlib: the final path component, with empty and "." segments
dropped (PurePosixPath(filename).name). -/
def pathName (filename : String) : List Char :=
  ((splitOnChar '/' filename.toList).filter (fun s => s ≠ [] && s ≠ ['.'])).getLastD []

/-- Model of pathlib Path(filename).suffix: "." plus the part of the name
after its last dot, provided that dot is neither the first nor the last
character of the name. -/
def pySuffix (filename : String) : String :=
  let name := pathName filename
  let parts := splitOnChar '.' name
  match parts.getLast? with
  | none => ""
  | some lastPart =>
    if 2 ≤ parts.length ∧ lastPart ≠ [] ∧ lastPart.length + 1 < name.length then
      ⟨'.' :: lastPart⟩
    else ""

/-! ## Chat flow of src/main.py -/

/-- Response record of the /chat endpoint (timestamp field omitted). -/
structure ChatResult where
  response : String
  model : String
  tokens_used : Nat
  source : String
deriving DecidableEq, Repr

/-- Outcome of a FastAPI handler: a JSON result, or an HTTPException with
the given status code raised past the handler. -/
inductive ChatOutcome where
  | ok (result : ChatResult)
  | raised (status : Nat)
deriving DecidableEq, Repr

/-- True exactly on the non-raising outcome. -/
def ChatOutcome.isOk : ChatOutcome → Bool
  | .ok _ => true
  | .raised _ => false

/-- Keyword rule chain of chat_endpoint (src/main.py lines 178-195): the
lower-cased message is tested against each keyword set in order; the first
match selects a canned Czech reply, otherwise the echo template. -/
def fallbackResponse (message : String) : String :=
  let ml := pyLower message
  if containsAny ml ["ahoj", "zdravím", "dobrý den"] then
    "Ahoj! Jak se máš? Jsem AI asistent a jsem tu, abych ti pomohl s čímkoli potřebuješ."
  else if containsAny ml ["jak se máš", "co děláš"] then
    "Mám se skvěle, děkuji za optání! Jak můžu dnes pomoci?"
  else if containsAny ml ["pomoc", "pomoct", "pomož"] then
    "Samozřejmě ti rád pomohu! Jakou pomoc potřebuješ? Můžu ti poradit s různými věcmi."
  else if containsAny ml ["děkuji", "díky", "děkuju"] then
    "Není za co! Pokud budeš potřebovat další pomoc, klidně se zeptej."
  else if containsAny ml ["co umíš", "co dokážeš"] then
    "Umím převádět řeč na text a chatovat v češtině. Mohu ti pomoci s otázkami, dát rady nebo jen si popovídat."
  else if containsAny ml ["počasí", "venku"] then
    "Bohužel nemám přístup k aktuálním informacím o počasí. Doporučuji zkontrolovat si počasí na internetu nebo v aplikaci."
  else if containsAny ml ["čas", "hodiny"] then
    "Aktuální čas si můžeš zkontrolovat na svém zařízení. Mohu ti pomoct s něčím jiným?"
  else
    "Rozumím tvé zprávě: \"" ++ message ++ "\". Jak ti konkrétně mohu pomoci?"

/-- True when no keyword set of fallbackResponse matches the lower-cased
message, i.e. the echo branch is taken. -/
def noRuleMatch (ml : String) : Bool :=
  !containsAny ml ["ahoj", "zdravím", "dobrý den"] &&
  !containsAny ml ["jak se máš", "co děláš"] &&
  !containsAny ml ["pomoc", "pomoct", "pomož"] &&
  !containsAny ml ["děkuji", "díky", "děkuju"] &&
  !containsAny ml ["co umíš", "co dokážeš"] &&
  !containsAny ml ["počasí", "venku"] &&
  !containsAny ml ["čas", "hodiny"]

/-- The /chat handler of src/main.py (chat_endpoint, lines 123-207).
`openaiConfigured` models `openai_client` being non-None; `ext` is the
oracle for the external chat-completion call (some (text, tokens) on
success, none when the call raises); `history` is the request's
conversation_history (it only extends the message list sent to the external
call, so it does not affect the observable outcome).  An empty stripped
message raises HTTPException(400), which the handler's own
`except Exception` clause catches and re-raises as HTTPException(500). -/
def chat_endpoint (openaiConfigured : Bool) (ext : Option (String × Nat))
    (history : List (String × String)) (message0 : String) : ChatOutcome :=
  let message := pyStrip message0
  let _ := history
  if message = "" then .raised 500
  else if openaiConfigured then
    match ext with
    | some (text, toks) => .ok ⟨text, "gpt-4o-mini", toks, "openai"⟩
    | none => .ok ⟨fallbackResponse message, "basic-czech", 0, "fallback"⟩
  else .ok ⟨fallbackResponse message, "basic-czech", 0, "fallback"⟩

/-- Echo template exactly as the specification words it (used only to compare
the spec's wording against the code's template). -/
def specEchoTemplate (message : String) : String :=
  "Rozumím tvé zprávě: \"" ++ message ++ "\". Jak ti mohu pomoci?"

/-! ## Transcription flow of src/main.py -/

/-- Outcome of the /transcribe handler of src/main.py: a JSON result
(transcript and language fields; the constant confidence/timestamp fields
are omitted) or a raised HTTPException status. -/
inductive TransOutcome where
  | ok (transcript : String) (language : String)
  | raised (status : Nat)
deriving DecidableEq, Repr

/-- True exactly on the non-raising outcome. -/
def TransOutcome.isOk : TransOutcome → Bool
  | .ok _ _ => true
  | .raised _ => false

/-- Status code of a raised outcome, none on success. -/
def TransOutcome.raisedStatus : TransOutcome → Option Nat
  | .ok _ _ => none
  | .raised s => some s

/-- Execution trace of one /transcribe invocation in src/main.py: the
outcome plus whether the staging temp file was created, whether it was
removed, and whether the whisper engine was invoked. -/
structure TransExec where
  outcome : TransOutcome
  tempCreated : Bool
  tempRemoved : Bool
  engineCalled : Bool
deriving DecidableEq, Repr

/-- The /transcribe handler of src/main.py (transcribe_audio, lines 94-121).
`whisperLoaded` models the whisper_model global being non-None; `engine` is
the oracle for whisper_model.transcribe (some text on success, none when it
raises); `size` is the uploaded byte count and `filename` the upload's
filename — the handler never inspects either (no extension or size
validation).  The temp file is created unconditionally once the model check
passes; os.unlink runs only on the success path, so an engine failure
leaves the temp file behind, and every raised error carries status 500
(the not-loaded HTTPException(500) is re-wrapped by the handler's own
`except Exception` clause, still as 500). -/
def transcribe_audio (whisperLoaded : Bool) (engine : Option String)
    (size : Nat) (filename : String) : TransExec :=
  let _ := size
  let _ := filename
  if whisperLoaded = false then ⟨.raised 500, false, false, false⟩
  else
    match engine with
    | some text => ⟨.ok text "cs", true, true, true⟩
    | none => ⟨.raised 500, true, false, true⟩

/-! ## WhisperService of src/services/whisper_service.py -/

/-- Allowed upload extensions of WhisperService.transcribe. -/
def allowed_extensions : List String := [".m4a", ".mp3", ".wav", ".webm", ".mp4"]

/-- The 25 MiB upload cap of WhisperService.transcribe. -/
def sizeCap : Nat := 25 * 1024 * 1024

/-- Errors raised by WhisperService.transcribe.  Python distinguishes them
only by their message string; `message` below renders each constructor to
exactly that string. -/
inductive WhisperErr where
  | notReady
  | unsupportedFormat (ext : String)
  | tooLarge
  | wrapped (e : String)
deriving DecidableEq, Repr

/-- The Python exception message of each WhisperService.transcribe error
(`wrapped e` is the outer handler re-raising str(e) of an inner failure,
including the missing-api-key case and engine failures). -/
def WhisperErr.message : WhisperErr → String
  | .notReady => "Whisper service not ready"
  | .unsupportedFormat ext => "Unsupported file format: " ++ ext
  | .tooLarge => "File too large. Maximum size: 25MB"
  | .wrapped e => "Transcription failed: " ++ e

deriving instance DecidableEq for Except

/-- Success record of WhisperService.transcribe (the duplicated
transcript/transcription/text fields carry one value; timestamp-free). -/
structure WhisperResult where
  transcript : String
  language : String
  file_size : Nat
  source : String
deriving DecidableEq, Repr

/-- Execution trace of one WhisperService.transcribe call: outcome plus
engine-call and temp-file lifecycle flags. -/
structure WhisperExec where
  outcome : Except WhisperErr WhisperResult
  engineCalled : Bool
  tempCreated : Bool
  tempRemoved : Bool
deriving DecidableEq, Repr

/-- WhisperService.transcribe (src/services/whisper_service.py, lines
47-112).  `is_loaded` is the service flag set by load_model;
`apiKeyPresent` models OPENAI_API_KEY being set at call time; `engine` is
the oracle for the OpenAI transcription API call (.ok text on success).
Checks run in source order: readiness, extension, size, api key; the temp
file is created only after all of them pass and is removed in a finally
block on both engine outcomes; the transcript is stripped; inner failures
are re-raised wrapped as "Transcription failed: ...". -/
def WhisperService.transcribe (is_loaded : Bool) (apiKeyPresent : Bool)
    (engine : Except String String) (size : Nat) (filename : String)
    (language : String) : WhisperExec :=
  if is_loaded = false then ⟨.error .notReady, false, false, false⟩
  else
    let ext := pyLower (pySuffix filename)
    if (allowed_extensions.contains ext) = false then
      ⟨.error (.unsupportedFormat ext), false, false, false⟩
    else if sizeCap < size then
      ⟨.error .tooLarge, false, false, false⟩
    else if apiKeyPresent = false then
      ⟨.error (.wrapped "OpenAI API key not configured"), false, false, false⟩
    else
      match engine with
      | .ok text => ⟨.ok ⟨pyStrip text, language, size, "openai-api"⟩, true, true, true⟩
      | .error e => ⟨.error (.wrapped e), true, true, true⟩

/-- WhisperService.load_model (src/services/whisper_service.py, lines
23-35): the body only assigns "openai-api"/"api"/True — it consults no
credential and cannot fail, so it returns True with is_loaded = True
regardless of the environment.  Result: (returned value, is_loaded). -/
def WhisperService.load_model (model_type : String) : Bool × Bool :=
  let _ := model_type
  (true, true)

/-! ## OpenAIService of src/services/openai_service.py -/

/-- OpenAIService.load_client (src/services/openai_service.py, lines
22-40): returns False leaving is_loaded False when OPENAI_API_KEY is
absent; otherwise constructs the client (`initOk` is the oracle for the
try block succeeding).  Result: (returned value, is_loaded). -/
def OpenAIService.load_client (apiKeyPresent : Bool) (initOk : Bool) : Bool × Bool :=
  if apiKeyPresent = false then (false, false)
  else if initOk then (true, true) else (false, false)

/-- OpenAIService.chat (src/services/openai_service.py, lines 51-99).
`is_loaded` is the flag set by load_client; `ext` is the oracle for the
chat-completion call (.ok (text, tokens) on success, .error str(e) when it
raises); `goals` only extends the system prompt sent to the external call.
Not loaded: fixed Czech fallback sentence, model "fallback", source
"fallback".  Call raised: message embedding str(e), model "error", source
"error".  No keyword matching happens anywhere in this service. -/
def OpenAIService.chat (is_loaded : Bool) (ext : Except String (String × Nat))
    (message : String) (goals : List String) : ChatResult :=
  let _ := message
  let _ := goals
  if is_loaded = false then
    ⟨"OpenAI není dostupný. Nastavte OPENAI_API_KEY v Railway environment.",
      "fallback", 0, "fallback"⟩
  else
    match ext with
    | .ok (text, toks) => ⟨text, "gpt-4o-mini", toks, "openai"⟩
    | .error e =>
      ⟨"Omlouváme se, došlo k chybě při komunikaci s OpenAI: " ++ e, "error", 0, "error"⟩

/-- Readiness flags after a modular-variant startup without/with the
credential: (whisper ready, openai ready), where each service's get_status
reports ready = is_loaded. -/
def startupReady (apiKeyPresent : Bool) (initOk : Bool) : Bool × Bool :=
  ((WhisperService.load_model "api").2, (OpenAIService.load_client apiKeyPresent initOk).2)

/-! ## HealthService of src/services/health_service.py -/

/-- Per-service health record of HealthService.get_service_health
(timestamp omitted). -/
structure ServiceHealth where
  service : String
  ready : Bool
  status : String
deriving DecidableEq, Repr

/-- HealthService.get_service_health (src/services/health_service.py,
lines 54-61). -/
def HealthService.get_service_health (service_name : String) (is_ready : Bool) : ServiceHealth :=
  ⟨service_name, is_ready, if is_ready then "healthy" else "degraded"⟩

/-- Aggregate health record of HealthService.get_status (constant app
metadata and timestamp omitted). -/
structure HealthStatus where
  status : String
  services : List (String × ServiceHealth)
deriving DecidableEq, Repr

/-- HealthService.get_status (src/services/health_service.py, lines
19-52): iterates the service map keeping an all_ready flag that any
ready=False clears, then reports "healthy" when all_ready survived and
"degraded" otherwise.  The input models the Python dict as an association
list of (service name, ready flag). -/
def HealthService.get_status (services : List (String × Bool)) : HealthStatus :=
  let all_ready := services.foldl (fun acc s => acc && s.2) true
  ⟨if all_ready then "healthy" else "degraded",
    services.map (fun s => (s.1, HealthService.get_service_health s.1 s.2))⟩

/-- Response of src/main.py's /health endpoint (constant
openai_available/timestamp fields omitted). -/
structure MainHealth where
  status : String
  whisper_loaded : Bool
  openai_configured : Bool
deriving DecidableEq, Repr

/-- The /health handler of src/main.py (health_check, lines 83-92): the
status field is the hardcoded literal "healthy" regardless of the readiness
flags; only the raw whisper_loaded/openai_configured booleans vary with the
state of the two singletons. -/
def health_check (whisperLoaded openaiConfigured : Bool) : MainHealth :=
  ⟨"healthy", whisperLoaded, openaiConfigured⟩

example : pySuffix "x.m4a" = ".m4a" := by decide
example : pySuffix "evil.txt" = ".txt" := by decide
example : pySuffix ".bashrc" = "" := by decide
example : pySuffix "a/b.tar.gz" = ".gz" := by decide
example : pyLower "Ahoj, jak se máš?" = "ahoj, jak se máš?" := by decide
example : chat_endpoint false none [] "" = .raised 500 := by decide
example : (WhisperService.transcribe true true (.ok " hi ") 4 "a.MP3" "cs").outcome
    = .ok ⟨"hi", "cs", 4, "openai-api"⟩ := by decide
example : (WhisperService.transcribe true true (.ok "x") 4 "a.txt" "cs").outcome
    = .error (.unsupportedFormat ".txt") := by decide
example : HealthService.get_status [("whisper", true), ("openai", false)]
    = ⟨"degraded", [("whisper", ⟨"whisper", true, "healthy"⟩),
        ("openai", ⟨"openai", false, "degraded"⟩)]⟩ := by decide

/-! ## Claims -/

/-- Claim C1, counterexample: a whitespace-only message makes chat_endpoint
raise HTTPException(500) past its boundary — even with the client configured
and a successful external call available — so the handler does not produce a
ChatResult for every message string. -/
theorem C1_counterexample :
    chat_endpoint true (some ("ok", 7)) [] "   " = .raised 500 ∧
    (chat_endpoint true (some ("ok", 7)) [] "   ").isOk = false := by
  decide

/-- Claim C1 (amended): for every message whose stripped form is nonempty,
chat_endpoint never raises — it produces a ChatResult for every client
configuration and external-call outcome — and on external failure the
result is the keyword-fallback ChatResult. -/
theorem C1_chat_no_raise (cfg : Bool) (ext : Option (String × Nat))
    (hist : List (String × String)) (msg : String) (h : pyStrip msg ≠ "") :
    (chat_endpoint cfg ext hist msg).isOk = true ∧
    chat_endpoint cfg none hist msg =
      .ok ⟨fallbackResponse (pyStrip msg), "basic-czech", 0, "fallback"⟩ := by
  constructor
  · cases cfg with
    | false => simp [chat_endpoint, h, ChatOutcome.isOk]
    | true =>
      rcases ext with _ | ⟨text, toks⟩ <;> simp [chat_endpoint, h, ChatOutcome.isOk]
  · cases cfg <;> simp [chat_endpoint, h]

/-- Claim C1, witness at a concrete nonempty message. -/
theorem C1_witness :
    (chat_endpoint false none [] "Ahoj").isOk = true ∧
    chat_endpoint false none [] "Ahoj" =
      .ok ⟨fallbackResponse (pyStrip "Ahoj"), "basic-czech", 0, "fallback"⟩ :=
  C1_chat_no_raise false none [] "Ahoj" (by decide)

/-- Claim C2, counterexample: in src/main.py an engine failure raises 500
while the staged temp file was created but never removed — the temporary
resource leaks on that exit path. -/
theorem C2_counterexample :
    transcribe_audio true none 3 "a.m4a" = ⟨.raised 500, true, false, true⟩ ∧
    (transcribe_audio true none 3 "a.m4a").tempCreated = true ∧
    (transcribe_audio true none 3 "a.m4a").tempRemoved = false := by
  decide

/-- Claim C2 (amended): WhisperService.transcribe removes its temp file on
every exit path (removed exactly when created, via try/finally), while
src/main.py's transcribe_audio removes it only on the success path. -/
theorem C2_temp_cleanup :
    (∀ (l k : Bool) (e : Except String String) (sz : Nat) (fn lg : String),
      (WhisperService.transcribe l k e sz fn lg).tempRemoved =
        (WhisperService.transcribe l k e sz fn lg).tempCreated) ∧
    (∀ (m : Bool) (e : Option String) (sz : Nat) (fn : String),
      (transcribe_audio m e sz fn).tempRemoved =
        ((transcribe_audio m e sz fn).tempCreated &&
          (transcribe_audio m e sz fn).outcome.isOk)) := by
  constructor
  · intro l k e sz fn lg
    simp only [WhisperService.transcribe]
    split
    · rfl
    · split
      · rfl
      · split
        · rfl
        · split
          · rfl
          · rcases e with t | er <;> rfl
  · intro m e sz fn
    cases m <;> rcases e with _ | t <;> rfl

/-- Claim C2, witness at concrete inputs. -/
theorem C2_witness :
    (WhisperService.transcribe true true (.error "boom") 3 "a.m4a" "cs").tempRemoved =
      (WhisperService.transcribe true true (.error "boom") 3 "a.m4a" "cs").tempCreated ∧
    (transcribe_audio true (some "hi") 3 "a.m4a").tempRemoved =
      ((transcribe_audio true (some "hi") 3 "a.m4a").tempCreated &&
        (transcribe_audio true (some "hi") 3 "a.m4a").outcome.isOk) :=
  ⟨C2_temp_cleanup.1 true true (.error "boom") 3 "a.m4a" "cs",
   C2_temp_cleanup.2 true (some "hi") 3 "a.m4a"⟩

/-- Claim C3, counterexample: src/main.py's transcribe_audio performs no
extension validation — a ".txt" upload (extension outside the allowed set)
is staged, sent to the engine, and succeeds. -/
theorem C3_counterexample :
    pySuffix "evil.txt" = ".txt" ∧
    allowed_extensions.contains ".txt" = false ∧
    transcribe_audio true (some "hello") 5 "evil.txt" =
      ⟨.ok "hello" "cs", true, true, true⟩ := by
  decide

/-- Claim C3 (amended): in WhisperService.transcribe (when the service is
loaded), a filename whose lower-cased suffix is outside the allowed set
fails with the unsupported-format error naming that extension, with no
engine call and no temp file; the error message renders as
"Unsupported file format: <ext>". -/
theorem C3_unsupported_format (k : Bool) (e : Except String String) (sz : Nat)
    (fn lg : String)
    (h : allowed_extensions.contains (pyLower (pySuffix fn)) = false) :
    WhisperService.transcribe true k e sz fn lg =
      ⟨.error (.unsupportedFormat (pyLower (pySuffix fn))), false, false, false⟩ ∧
    (WhisperErr.unsupportedFormat (pyLower (pySuffix fn))).message =
      "Unsupported file format: " ++ pyLower (pySuffix fn) := by
  refine ⟨?_, rfl⟩
  simp [WhisperService.transcribe, h]
  intro hmem
  exact absurd hmem (by simpa using h)

/-- Claim C3, witness at the concrete filename "evil.txt". -/
theorem C3_witness :
    WhisperService.transcribe true true (.ok "x") 1 "evil.txt" "cs" =
      ⟨.error (.unsupportedFormat (pyLower (pySuffix "evil.txt"))), false, false, false⟩ ∧
    (WhisperErr.unsupportedFormat (pyLower (pySuffix "evil.txt"))).message =
      "Unsupported file format: " ++ pyLower (pySuffix "evil.txt") :=
  C3_unsupported_format true (.ok "x") 1 "evil.txt" "cs" (by decide)

/-- Claim C4, counterexample: src/main.py's transcribe_audio performs no
size validation — a payload one byte over 25 MiB is staged into a temp file
and transcribed successfully, with no too-large error. -/
theorem C4_counterexample :
    sizeCap < 26214401 ∧
    transcribe_audio true (some "hi") 26214401 "a.m4a" =
      ⟨.ok "hi" "cs", true, true, true⟩ := by
  decide

/-- Claim C4 (amended): in WhisperService.transcribe with a loaded service
and an allowed extension, a payload over 25 MiB fails with the too-large
error before any temp file is created or the engine is called, and a
payload of at most 25 MiB never produces the too-large error. -/
theorem C4_size_cap (k : Bool) (e : Except String String) (fn lg : String) (sz : Nat)
    (hext : allowed_extensions.contains (pyLower (pySuffix fn)) = true) :
    (sizeCap < sz →
      WhisperService.transcribe true k e sz fn lg = ⟨.error .tooLarge, false, false, false⟩) ∧
    (sz ≤ sizeCap → ∀ l : Bool,
      (WhisperService.transcribe l k e sz fn lg).outcome ≠ .error .tooLarge) := by
  constructor
  · intro h1
    simp [WhisperService.transcribe, hext, h1]
    simpa using hext
  · intro h2 l
    simp only [WhisperService.transcribe]
    split
    · simp
    · split
      · simp
      · split
        · exact absurd ‹sizeCap < sz› (by omega)
        · split
          · simp
          · rcases e with t | er <;> simp

/-- Claim C4, witness at concrete sizes one byte over and well under the cap. -/
theorem C4_witness :
    WhisperService.transcribe true true (.ok "x") 26214401 "a.m4a" "cs" =
      ⟨.error .tooLarge, false, false, false⟩ ∧
    (WhisperService.transcribe true true (.ok "x") 10 "a.m4a" "cs").outcome ≠
      .error .tooLarge :=
  ⟨(C4_size_cap true (.ok "x") "a.m4a" "cs" 26214401 (by decide)).1 (by decide),
   (C4_size_cap true (.ok "x") "a.m4a" "cs" 10 (by decide)).2 (by decide) true⟩

/-- Claim C5, counterexample: when the whisper model is not loaded,
src/main.py's /transcribe raises status 500, not the 503 the taxonomy
demands for an engine that is not ready. -/
theorem C5_counterexample :
    (transcribe_audio false none 0 "a.m4a").outcome = .raised 500 ∧
    (500 : Nat) ≠ 503 := by
  decide

/-- Claim C5 (amended): every error exit of src/main.py's /transcribe
carries HTTP status 500 — the not-loaded check and engine failures are both
wrapped into 500, and no 400/413/503 path exists in this handler. -/
theorem C5_all_500 (m : Bool) (e : Option String) (sz : Nat) (fn : String) :
    (transcribe_audio m e sz fn).outcome.raisedStatus = none ∨
    (transcribe_audio m e sz fn).outcome.raisedStatus = some 500 := by
  cases m <;> rcases e with _ | t <;>
    simp [transcribe_audio, TransOutcome.raisedStatus]

/-- Claim C5, witness at a concrete failing invocation. -/
theorem C5_witness :
    (transcribe_audio false none 0 "a.m4a").outcome.raisedStatus = none ∨
    (transcribe_audio false none 0 "a.m4a").outcome.raisedStatus = some 500 :=
  C5_all_500 false none 0 "a.m4a"

/-- The running all_ready && fold of HealthService.get_status equals the
seed conjoined with List.all over the service flags. -/
theorem foldl_and_eq_all (l : List (String × Bool)) (b : Bool) :
    l.foldl (fun acc s => acc && s.2) b = (b && l.all (fun s => s.2)) := by
  induction l generalizing b with
  | nil => simp
  | cons x t ih => simp [List.foldl_cons, List.all_cons, ih, Bool.and_assoc]

/-- Claim C6, counterexample: src/main.py's routed /health endpoint reports
status "healthy" even when neither tracked service is ready — the status
string is hardcoded — so the healthy-iff-all-ready property fails on that
endpoint. -/
theorem C6_counterexample :
    (health_check false false).status = "healthy" ∧
    (health_check false false).whisper_loaded = false ∧
    (health_check false false).openai_configured = false ∧
    ("healthy" : String) ≠ "degraded" := by
  decide

/-- Claim C6 (amended): for every mapping of service names to ready
booleans, HealthService.get_status reports "healthy" iff every tracked
service is ready, and "degraded" iff some service is not ready; the routed
/health endpoint of src/main.py, by contrast, reports "healthy"
unconditionally. -/
theorem C6_health_iff (services : List (String × Bool)) :
    ((HealthService.get_status services).status = "healthy" ↔
      services.all (fun s => s.2) = true) ∧
    ((HealthService.get_status services).status = "degraded" ↔
      services.all (fun s => s.2) = false) := by
  simp only [HealthService.get_status, foldl_and_eq_all, Bool.true_and]
  cases hall : services.all (fun s => s.2) <;> simp [hall]

/-- Claim C6, witness at a concrete service mapping. -/
theorem C6_witness :
    ((HealthService.get_status [("whisper", true), ("openai", false)]).status = "healthy" ↔
      ([("whisper", true), ("openai", false)] : List (String × Bool)).all (fun s => s.2) = true) ∧
    ((HealthService.get_status [("whisper", true), ("openai", false)]).status = "degraded" ↔
      ([("whisper", true), ("openai", false)] : List (String × Bool)).all (fun s => s.2) = false) :=
  C6_health_iff [("whisper", true), ("openai", false)]

/-- Claim C7, counterexample: for the no-keyword message "Test" with no
client configured, the code's echo reply says "Jak ti konkrétně mohu
pomoci?" and so differs from the template the claim states
("Jak ti mohu pomoci?"). -/
theorem C7_counterexample :
    noRuleMatch (pyLower (pyStrip "Test")) = true ∧
    chat_endpoint false none [] "Test" =
      .ok ⟨"Rozumím tvé zprávě: \"Test\". Jak ti konkrétně mohu pomoci?",
        "basic-czech", 0, "fallback"⟩ ∧
    "Rozumím tvé zprávě: \"Test\". Jak ti konkrétně mohu pomoci?" ≠
      specEchoTemplate "Test" := by
  decide

/-- Claim C7 (amended): for every message matching no keyword rule, with a
nonempty stripped form and no external client, the response is exactly
the code's echo template
`Rozumím tvé zprávě: "<message>". Jak ti konkrétně mohu pomoci?` built
from the stripped original message, with source "fallback". -/
theorem C7_echo_template (ext : Option (String × Nat)) (hist : List (String × String))
    (msg : String) (h1 : noRuleMatch (pyLower (pyStrip msg)) = true)
    (h2 : pyStrip msg ≠ "") :
    chat_endpoint false ext hist msg =
      .ok ⟨"Rozumím tvé zprávě: \"" ++ pyStrip msg ++ "\". Jak ti konkrétně mohu pomoci?",
        "basic-czech", 0, "fallback"⟩ := by
  simp only [noRuleMatch, Bool.and_eq_true, Bool.not_eq_true'] at h1
  obtain ⟨⟨⟨⟨⟨⟨k1, k2⟩, k3⟩, k4⟩, k5⟩, k6⟩, k7⟩ := h1
  simp [chat_endpoint, h2, fallbackResponse, k1, k2, k3, k4, k5, k6, k7]

/-- Claim C7, witness at the concrete message "Test". -/
theorem C7_witness :
    chat_endpoint false none [] "Test" =
      .ok ⟨"Rozumím tvé zprávě: \"" ++ pyStrip "Test" ++ "\". Jak ti konkrétně mohu pomoci?",
        "basic-czech", 0, "fallback"⟩ :=
  C7_echo_template none [] "Test" (by decide) (by decide)

/-- Claim C8: for "Ahoj, jak se máš?" with no client configured, the result
is the greeting rule's literal reply with source "fallback", even though the
well-being rule's keywords also match — the first rule in source order wins. -/
theorem C8_greeting_priority :
    chat_endpoint false none [] "Ahoj, jak se máš?" =
      .ok ⟨"Ahoj! Jak se máš? Jsem AI asistent a jsem tu, abych ti pomohl s čímkoli potřebuješ.",
        "basic-czech", 0, "fallback"⟩ ∧
    containsAny (pyLower (pyStrip "Ahoj, jak se máš?")) ["ahoj", "zdravím", "dobrý den"] = true ∧
    containsAny (pyLower (pyStrip "Ahoj, jak se máš?")) ["jak se máš", "co děláš"] = true := by
  decide

/-- Claim C9, counterexample: after a startup with no credential, the
whisper service still reports ready = true — its load_model consults no
credential — so transcription readiness is not downgraded as claimed. -/
theorem C9_counterexample :
    (startupReady false true).1 = true ∧
    WhisperService.load_model "api" = (true, true) := by
  decide

/-- Claim C9 (amended): with the credential absent, startup completes
without raising (both load functions return normally), the chat client is
left not loaded so chat serves only the fixed fallback sentence, but the
whisper service still reports ready = true; the missing credential only
surfaces when a transcription is attempted, as a wrapped runtime error. -/
theorem C9_no_crash_fallback (initOk : Bool) (ext : Except String (String × Nat))
    (msg : String) (goals : List String) (engine : Except String String)
    (sz : Nat) (lang : String) (h : sz ≤ sizeCap) :
    OpenAIService.load_client false initOk = (false, false) ∧
    (startupReady false initOk).2 = false ∧
    OpenAIService.chat (startupReady false initOk).2 ext msg goals =
      ⟨"OpenAI není dostupný. Nastavte OPENAI_API_KEY v Railway environment.",
        "fallback", 0, "fallback"⟩ ∧
    (startupReady false initOk).1 = true ∧
    (WhisperService.transcribe true false engine sz "a.m4a" lang).outcome =
      .error (.wrapped "OpenAI API key not configured") := by
  refine ⟨rfl, rfl, rfl, rfl, ?_⟩
  have hmem : pyLower (pySuffix "a.m4a") ∈ allowed_extensions := by decide
  simp [WhisperService.transcribe, hmem, Nat.not_lt.mpr h]

/-- Claim C9, witness at a concrete configuration. -/
theorem C9_witness :
    OpenAIService.load_client false true = (false, false) ∧
    (startupReady false true).2 = false ∧
    OpenAIService.chat (startupReady false true).2 (.ok ("x", 1)) "Ahoj" [] =
      ⟨"OpenAI není dostupný. Nastavte OPENAI_API_KEY v Railway environment.",
        "fallback", 0, "fallback"⟩ ∧
    (startupReady false true).1 = true ∧
    (WhisperService.transcribe true false (.ok "x") 3 "a.m4a" "cs").outcome =
      .error (.wrapped "OpenAI API key not configured") :=
  C9_no_crash_fallback true (.ok ("x", 1)) "Ahoj" [] (.ok "x") 3 "cs" (by decide)

/-- Claim C10: OpenAIService.chat with the client not loaded returns the
fixed Czech unavailability sentence with tokens 0, model "fallback" and
source "fallback" (independent of the message and goals, so no keyword
matching is consulted); when the external call raises, it returns the
message embedding str(e) with tokens 0, model "error" and source "error". -/
theorem C10_service_chat (ext : Except String (String × Nat)) (msg : String)
    (goals : List String) (e : String) :
    OpenAIService.chat false ext msg goals =
      ⟨"OpenAI není dostupný. Nastavte OPENAI_API_KEY v Railway environment.",
        "fallback", 0, "fallback"⟩ ∧
    OpenAIService.chat true (.error e) msg goals =
      ⟨"Omlouváme se, došlo k chybě při komunikaci s OpenAI: " ++ e, "error", 0, "error"⟩ := by
  constructor <;> rfl

/-- Claim C10, witness at concrete inputs. -/
theorem C10_witness :
    OpenAIService.chat false (.ok ("x", 1)) "Ahoj" [] =
      ⟨"OpenAI není dostupný. Nastavte OPENAI_API_KEY v Railway environment.",
        "fallback", 0, "fallback"⟩ ∧
    OpenAIService.chat true (.error "boom") "Ahoj" [] =
      ⟨"Omlouváme se, došlo k chybě při komunikaci s OpenAI: " ++ "boom",
        "error", 0, "error"⟩ :=
  C10_service_chat (.ok ("x", 1)) "Ahoj" [] "boom"
